import Mathlib

/-!
Shallow embedding of the add-funds flow of the billing portal.

Server side (src/app/api/add-funds/apply-credit/route.ts, which holds the
apply-credit POST handler and the create-payment-intent POST handler):
request bodies are modelled as optional typed fields (a missing JSON field is
none), JS numbers carrying money amounts as rationals (so that the
Number.isInteger check is expressible), and the external Stripe gateway as an
explicit outcome parameter.  Each handler returns the HTTP response it sends
together with the instruction (if any) it issued to the gateway.

Client side (src/app/customers/[slug]/page.tsx and the CustomerPortal
component in src/unnamed/part_000): each handler is modelled as a function
from its environment (the outcomes of the asynchronous calls it performs) to
the ordered list of observable actions it performs plus its resulting UI
state.

JS string primitives used by the source (String.prototype.startsWith,
String.prototype.toLowerCase) are modelled over the character list of the
Lean string so that they evaluate by kernel reduction.
-/

/-- JS String.prototype.startsWith: the second string is a prefix of the
first. -/
def jsStartsWith (s p : String) : Bool := p.data.isPrefixOf s.data

/-- JS String.prototype.toLowerCase (ASCII fragment, which covers the
3-letter currency codes the flow handles). -/
def jsToLower (s : String) : String := ⟨s.data.map Char.toLower⟩

/-- A parsed JSON request body for the two POST endpoints.  A field absent
from the JSON object is none; amount is a JS number, modelled as a rational
so that the Number.isInteger check and the range checks are faithful. -/
structure ReqBody where
  customerId : Option String
  amount : Option ℚ
  currency : Option String
deriving DecidableEq

/-- The JSON payload of an HTTP response from the two POST endpoints. -/
inductive ApiBody where
  /-- an error object carrying a human-readable message -/
  | err (msg : String)
  /-- the bare success acknowledgment of apply-credit -/
  | ok
  /-- the create-payment-intent success payload carrying the secret -/
  | clientSecret (s : String)
deriving DecidableEq

/-- An HTTP response: status code plus JSON payload. -/
structure ApiResponse where
  status : Nat
  body : ApiBody
deriving DecidableEq

/-- A customer balance transaction as instructed to the ledger gateway by
stripe.customers.createBalanceTransaction. -/
structure BalanceTransaction where
  customer : String
  amount : ℚ
  currency : String
deriving DecidableEq

/-- The parameters of a stripe.paymentIntents.create call. -/
structure CreateParams where
  amount : ℚ
  currency : String
  customer : String
deriving DecidableEq

/-- Minimum amount accepted by apply-credit (MIN_CENTS in the apply-credit
route). -/
def applyCreditMin : ℚ := 1

/-- Minimum amount accepted by create-payment-intent (MIN_CENTS in the
create-payment-intent route). -/
def createIntentMin : ℚ := 50

/-- Maximum amount accepted by both routes (MAX_CENTS = 999_999_99). -/
def maxCents : ℚ := 99999999

/-- The apply-credit POST handler
(src/app/api/add-funds/apply-credit/route.ts, first handler).
Input: the parsed body (none when request.json() throws) and the outcome of
the gateway call.  Output: the HTTP response, paired with the balance
transaction instructed to the gateway (none when validation failed and the
gateway was never reached). -/
def applyCreditPOST (body : Option ReqBody) (gatewayOk : Bool) :
    ApiResponse × Option BalanceTransaction :=
  match body with
  | none => (⟨400, .err "Invalid JSON body"⟩, none)
  | some b =>
    let currency := b.currency.getD "usd"
    match b.customerId with
    | none => (⟨400, .err "Valid customerId (cus_...) is required"⟩, none)
    | some customerId =>
      if customerId = "" ∨ jsStartsWith customerId "cus_" = false then
        (⟨400, .err "Valid customerId (cus_...) is required"⟩, none)
      else
        match b.amount with
        | none =>
          (⟨400, .err "Amount must be an integer in cents between 1 and 99999999"⟩, none)
        | some amount =>
          if amount.den ≠ 1 ∨ amount < applyCreditMin ∨ maxCents < amount then
            (⟨400, .err "Amount must be an integer in cents between 1 and 99999999"⟩, none)
          else if currency.length ≠ 3 then
            (⟨400, .err "Valid 3-letter currency code is required"⟩, none)
          else
            let txn : BalanceTransaction := ⟨customerId, -amount, jsToLower currency⟩
            if gatewayOk then (⟨200, .ok⟩, some txn)
            else (⟨500, .err "Failed to apply credit"⟩, some txn)

/-- The payment intent object returned by stripe.paymentIntents.create, as
far as the create-payment-intent handler reads it. -/
structure CreatedIntent where
  client_secret : Option String
deriving DecidableEq

/-- The create-payment-intent POST handler
(src/app/api/add-funds/apply-credit/route.ts, second handler).
Input: the parsed body and the outcome of stripe.paymentIntents.create (an
internal error message on failure).  Output: the HTTP response, paired with
the creation parameters sent to the gateway (none when validation failed). -/
def createPaymentIntentPOST (body : Option ReqBody)
    (gateway : Except String CreatedIntent) :
    ApiResponse × Option CreateParams :=
  match body with
  | none => (⟨400, .err "Invalid JSON body"⟩, none)
  | some b =>
    let currency := b.currency.getD "usd"
    match b.customerId with
    | none => (⟨400, .err "Valid customerId (cus_...) is required"⟩, none)
    | some customerId =>
      if customerId = "" ∨ jsStartsWith customerId "cus_" = false then
        (⟨400, .err "Valid customerId (cus_...) is required"⟩, none)
      else
        match b.amount with
        | none =>
          (⟨400, .err "Amount must be an integer in cents between 50 and 99999999"⟩, none)
        | some amount =>
          if amount.den ≠ 1 ∨ amount < createIntentMin ∨ maxCents < amount then
            (⟨400, .err "Amount must be an integer in cents between 50 and 99999999"⟩, none)
          else
            let params : CreateParams := ⟨amount, jsToLower currency, customerId⟩
            match gateway with
            | .error _ =>
              (⟨500, .err "Failed to create payment intent"⟩, some params)
            | .ok intent =>
              match intent.client_secret with
              | none => (⟨500, .err "Failed to create payment intent"⟩, some params)
              | some s => (⟨200, .clientSecret s⟩, some params)

/-- Numeric value of a list of decimal digit characters. -/
def digitsVal (cs : List Char) : Nat :=
  cs.foldl (fun acc c => 10 * acc + (c.toNat - 48)) 0

/-- Lexical part of JS parseFloat on a plain decimal literal: optional sign,
integer digit string, optional dot and fractional digit string (trailing
characters are ignored, as in JS).  Returns the negativity flag, the integer
part, the fractional part and the number of fractional digits; none stands
for NaN (no parseable number at the front of the string). -/
def parseParts (s : String) : Option (Bool × ℕ × ℕ × ℕ) :=
  let cs := s.data
  let neg : Bool := cs.head? = some '-'
  let t := if cs.head? = some '-' ∨ cs.head? = some '+' then cs.tail else cs
  let intDigits := t.takeWhile Char.isDigit
  let rest := t.dropWhile Char.isDigit
  let fracDigits : List Char :=
    if rest.head? = some '.' then rest.tail.takeWhile Char.isDigit else []
  if intDigits.isEmpty ∧ fracDigits.isEmpty then none
  else some (neg, digitsVal intDigits, digitsVal fracDigits, fracDigits.length)

/-- JS parseFloat on plain decimal literals, evaluated exactly over the
rationals; none stands for NaN.  Exponent forms and Infinity are outside
this model (for them the client either rejects the non-finite value or
forwards an out-of-range amount that the server rejects); likewise IEEE
double rounding is not modelled, the decimal literal is read exactly. -/
def parseFloat (s : String) : Option ℚ :=
  (parseParts s).map fun p =>
    (if p.1 then (-1 : ℚ) else 1) * ((p.2.1 : ℚ) + (p.2.2.1 : ℚ) / (10 : ℚ) ^ p.2.2.2)

/-- JS Math.round: round half toward positive infinity. -/
def jsRound (q : ℚ) : ℤ := ⌊q + 1 / 2⌋

/-- The slice of a retrieved Stripe payment intent that
processPaymentRedirect reads (plus the customer field, which it does not
read).  amount_received is optional because the handler accesses it through
a defensive cast; amount and currency are optional because the handler
guards them with nullish-coalescing fallbacks. -/
structure PaymentIntentSnapshot where
  status : String
  amount : Option ℤ
  amount_received : Option ℤ
  currency : Option String
  customer : Option String
deriving DecidableEq

/-- The amount credited after a redirect:
amount_received ?? amount ?? 0 (page.tsx lines 33 to 36). -/
def resolvedAmount (intent : PaymentIntentSnapshot) : ℤ :=
  ((intent.amount_received).orElse (fun _ => intent.amount)).getD 0

/-- Environment of one run of processPaymentRedirect: whether loadStripe
resolves to a client, the payment intent returned by retrievePaymentIntent
(none when absent), and whether the apply-credit POST responds ok. -/
structure RedirectEnv where
  stripeLoads : Bool
  intent : Option PaymentIntentSnapshot
  applyCreditOk : Bool
deriving DecidableEq

/-- Observable actions of the customer portal page, in program order. -/
inductive PageAction where
  /-- the loadStripe call -/
  | loadStripe
  /-- window.history.replaceState to the given URL -/
  | replaceUrl (url : String)
  /-- stripe.retrievePaymentIntent with the given client secret -/
  | retrieveIntent (secret : String)
  /-- POST /api/add-funds/apply-credit with this body -/
  | applyCredit (customerId : String) (amount : ℤ) (currency : String)
  /-- GET /api/customer (the fetchCustomer callback) -/
  | fetchCustomer
deriving DecidableEq

/-- processPaymentRedirect (page.tsx lines 27 to 46): the ordered actions it
performs and its promise outcome (Except.error is a thrown exception whose
message is carried). -/
def processPaymentRedirect (customerId clientSecret : String)
    (env : RedirectEnv) : List PageAction × Except String Unit :=
  if env.stripeLoads = false then ([.loadStripe], .ok ())
  else
    match env.intent with
    | none => ([.loadStripe, .retrieveIntent clientSecret], .ok ())
    | some intent =>
      if intent.status ≠ "succeeded" then
        ([.loadStripe, .retrieveIntent clientSecret], .ok ())
      else
        let amount := resolvedAmount intent
        if amount < 1 then ([.loadStripe, .retrieveIntent clientSecret], .ok ())
        else
          let currency := intent.currency.getD "usd"
          let acts := [.loadStripe, .retrieveIntent clientSecret,
            .applyCredit customerId amount currency]
          if env.applyCreditOk then (acts, .ok ())
          else (acts, .error "Failed to apply credit")

/-- Result of the page-load effect: the actions performed, the address bar
at the end, and the error state shown to the user (none when no error). -/
structure PageOutcome where
  actions : List PageAction
  url : String
  error : Option String
deriving DecidableEq

/-- The address the browser arrives on: the customer page path, with the
confirmation secret as a query parameter when returning from a redirect. -/
def initialUrl (slug : String) (secretParam : Option String) : String :=
  match secretParam with
  | none => "/customers/" ++ slug
  | some s => "/customers/" ++ slug ++ "?payment_intent_client_secret=" ++ s

/-- The useEffect body of CustomerPortalPage (page.tsx lines 75 to 97):
bail out on an empty slug; with the secret query parameter present, strip it
via replaceState and run the reconciliation handler, refetching the customer
on success and showing the thrown message on failure; without it, just fetch
the customer. -/
def pageLoadEffect (slug : String) (secretParam : Option String)
    (env : RedirectEnv) : PageOutcome :=
  if slug = "" then
    { actions := [], url := initialUrl slug secretParam, error := none }
  else
    match secretParam with
    | none => { actions := [.fetchCustomer], url := initialUrl slug none, error := none }
    | some secret =>
      let stripped := "/customers/" ++ slug
      let run := processPaymentRedirect slug secret env
      match run.2 with
      | .ok _ =>
        { actions := .replaceUrl stripped :: run.1 ++ [.fetchCustomer],
          url := stripped, error := none }
      | .error e =>
        { actions := .replaceUrl stripped :: run.1, url := stripped, error := some e }

/-- Whether a page action is an apply-credit call. -/
def isApplyCredit : PageAction → Bool
  | .applyCredit _ _ _ => true
  | _ => false

/-- Number of apply-credit calls in a list of page actions. -/
def applyCreditCount (acts : List PageAction) : Nat := acts.countP isApplyCredit

/-- Observable actions of handleConfirmPayment (the synchronous confirmation
path in CustomerPortal), in program order. -/
inductive ConfirmAction where
  /-- elements.submit -/
  | submitDetails
  /-- stripe.confirmPayment -/
  | confirmCharge
  /-- POST /api/add-funds/apply-credit with this body; the amount is none
  when parseFloat produced NaN -/
  | applyCredit (customerId : String) (amount : Option ℤ) (currency : String)
  /-- the onBalanceUpdated callback (refetch of the customer) -/
  | balanceUpdated
deriving DecidableEq

/-- Outcome of the stripe.confirmPayment call: a returned error object, an
external-authentication redirect that navigates the browser away, or a
synchronous success. -/
inductive ConfirmOutcome where
  | declined (msg : Option String)
  | redirected
  | succeeded
deriving DecidableEq

/-- Environment of one run of handleConfirmPayment: whether the stripe and
elements handles and the client secret are all present, the outcome of
elements.submit (some = an error object, whose optional field is its
message), the outcome of confirmPayment, and the apply-credit response
(ok flag plus the optional error field of its JSON body). -/
structure ConfirmEnv where
  ready : Bool
  submitError : Option (Option String)
  outcome : ConfirmOutcome
  applyCreditOk : Bool
  applyCreditErrBody : Option String
deriving DecidableEq

/-- handleConfirmPayment (src/unnamed/part_000 lines 94 to 167): the ordered
actions it performs and the payError state it leaves (none when no error is
shown). -/
def handleConfirmPayment (customerId amountDollars customerCurrency : String)
    (env : ConfirmEnv) : List ConfirmAction × Option String :=
  if env.ready = false then ([], none)
  else
    let amountCents := (parseFloat amountDollars).map fun q => jsRound (q * 100)
    match env.submitError with
    | some m => ([.submitDetails], some (m.getD "Validation failed"))
    | none =>
      match env.outcome with
      | .declined m => ([.submitDetails, .confirmCharge], some (m.getD "Payment failed"))
      | .redirected => ([.submitDetails, .confirmCharge], none)
      | .succeeded =>
        let acts := [.submitDetails, .confirmCharge,
          .applyCredit customerId amountCents customerCurrency]
        if env.applyCreditOk then (acts ++ [.balanceUpdated], none)
        else
          (acts, some (env.applyCreditErrBody.getD
            "Payment succeeded but failed to add credit. Contact support."))

/-- Whether a confirm-flow action is an apply-credit call. -/
def isConfirmApplyCredit : ConfirmAction → Bool
  | .applyCredit _ _ _ => true
  | _ => false

/-- Number of apply-credit calls in a list of confirm-flow actions. -/
def confirmApplyCreditCount (acts : List ConfirmAction) : Nat :=
  acts.countP isConfirmApplyCredit

/-- The boundary call of handleCreatePaymentIntent. -/
inductive CreateAction where
  /-- POST /api/add-funds/create-payment-intent with this body -/
  | createIntent (customerId : String) (amount : ℤ) (currency : String)
deriving DecidableEq

/-- Environment of one run of handleCreatePaymentIntent: the outcome of the
create-payment-intent POST (on failure, the optional error field of the
JSON body; on success, the returned client secret). -/
structure CreateEnv where
  resp : Except (Option String) String

/-- handleCreatePaymentIntent (src/unnamed/part_000 lines 70 to 92): the
boundary calls it performs, the payError state it leaves, and the client
secret it stores. -/
def handleCreatePaymentIntent (customerId amountDollars customerCurrency : String)
    (env : CreateEnv) : List CreateAction × Option String × Option String :=
  match parseFloat amountDollars with
  | none => ([], some "Enter at least $0.50", none)
  | some q =>
    let amount := jsRound (q * 100)
    if amount < 50 then ([], some "Enter at least $0.50", none)
    else
      match env.resp with
      | .error m =>
        ([.createIntent customerId amount customerCurrency],
          some (m.getD "Failed to create payment"), none)
      | .ok cs => ([.createIntent customerId amount customerCurrency], none, some cs)

/-- Helper: one run of the reconciliation handler performs at most one
apply-credit call. -/
theorem processPaymentRedirect_count_le_one (c s : String) (env : RedirectEnv) :
    applyCreditCount (processPaymentRedirect c s env).1 ≤ 1 := by
  rcases env with ⟨sl, intent, ok⟩
  cases sl <;> rcases intent with _ | intent <;>
    simp only [processPaymentRedirect] <;>
    split_ifs <;>
    simp [applyCreditCount, isApplyCredit]

/-- Helper: one page-load effect performs at most one apply-credit call. -/
theorem pageLoadEffect_count_le_one (slug : String) (sp : Option String)
    (env : RedirectEnv) :
    applyCreditCount (pageLoadEffect slug sp env).actions ≤ 1 := by
  by_cases hs : slug = ""
  · simp [pageLoadEffect, hs, applyCreditCount]
  · rcases sp with _ | secret
    · simp [pageLoadEffect, hs, applyCreditCount, isApplyCredit]
    · have h := processPaymentRedirect_count_le_one slug secret env
      rcases hr : (processPaymentRedirect slug secret env).2 with e | u <;>
        simp [pageLoadEffect, hs, hr, applyCreditCount, isApplyCredit,
          List.countP_append, List.countP_cons] at h ⊢ <;>
        omega

/-- Claim C1: on a page load without the payment_intent_client_secret query
parameter, only the plain customer fetch runs (no reconciliation action, in
particular zero apply-credit calls); on a page load with the parameter, the
reconciliation path runs and performs at most one apply-credit call; and one
run of the synchronous confirmation handler performs at most one apply-credit
call.  So each entry point invokes the credit-application service at most
once per run, and the two are selected exclusively by the query parameter. -/
theorem claim_c1_at_most_once (slug secret : String) (env : RedirectEnv)
    (cid ad cur : String) (cenv : ConfirmEnv) :
    (∀ a ∈ (pageLoadEffect slug none env).actions, a = PageAction.fetchCustomer)
    ∧ applyCreditCount (pageLoadEffect slug none env).actions = 0
    ∧ applyCreditCount (pageLoadEffect slug (some secret) env).actions ≤ 1
    ∧ confirmApplyCreditCount (handleConfirmPayment cid ad cur cenv).1 ≤ 1 := by
  refine ⟨?_, ?_, pageLoadEffect_count_le_one slug (some secret) env, ?_⟩
  · by_cases hs : slug = "" <;> simp [pageLoadEffect, hs]
  · by_cases hs : slug = "" <;>
      simp [pageLoadEffect, hs, applyCreditCount, isApplyCredit]
  · rcases cenv with ⟨ready, se, outc, ok, eb⟩
    cases ready <;> rcases se with _ | m <;> cases outc <;> cases ok <;>
      simp [handleConfirmPayment, confirmApplyCreditCount, isConfirmApplyCredit]

/-- Witness for claim C1 at concrete inputs. -/
theorem claim_c1_witness :
    applyCreditCount (pageLoadEffect "cus_1" none
        ⟨true, some ⟨"succeeded", some 200, some 200, some "usd", none⟩, true⟩).actions = 0
    ∧ applyCreditCount (pageLoadEffect "cus_1" (some "sec")
        ⟨true, some ⟨"succeeded", some 200, some 200, some "usd", none⟩, true⟩).actions ≤ 1
    ∧ confirmApplyCreditCount (handleConfirmPayment "cus_1" "2.00" "usd"
        ⟨true, none, .succeeded, true, none⟩).1 ≤ 1 := by
  have h := claim_c1_at_most_once "cus_1" "sec"
    ⟨true, some ⟨"succeeded", some 200, some 200, some "usd", none⟩, true⟩
    "cus_1" "2.00" "usd" ⟨true, none, .succeeded, true, none⟩
  exact ⟨h.2.1, h.2.2.1, h.2.2.2⟩

/-- Counterexample to claim C2: the integer amount 10 lies below 50 minor
units, yet the apply-credit endpoint does not reject it with a 400-class
validation error — it processes it (200 on gateway success; 500, a gateway
failure rather than a validation failure, otherwise).  Its MIN_CENTS is 1,
not 50. -/
theorem claim_c2_counterexample :
    ((10 : ℚ) < 50 ∧ (10 : ℚ).den = 1 ∧ (1 : ℚ) ≤ 10)
    ∧ (applyCreditPOST (some ⟨some "cus_1", some 10, some "usd"⟩) true).1.status = 200
    ∧ (applyCreditPOST (some ⟨some "cus_1", some 10, some "usd"⟩) false).1.status = 500 := by
  decide

/-- Claim C2 as amended: for a well-formed customerId and currency, the
create-payment-intent endpoint rejects with 400 every amount below 50 minor
units, above 99999999, or non-integer; the apply-credit endpoint rejects
with 400 every amount below 1, above 99999999, or non-integer, but does not
reject integers in [1, 49] as the original claim requires. -/
theorem claim_c2_amended (cid cur : String) (a : ℚ) (gwOk : Bool)
    (gw : Except String CreatedIntent)
    (hcid1 : cid ≠ "") (hcid2 : jsStartsWith cid "cus_" = true)
    (hcur : cur.length = 3) :
    (a < 50 ∨ 99999999 < a ∨ a.den ≠ 1 →
      (createPaymentIntentPOST (some ⟨some cid, some a, some cur⟩) gw).1.status = 400)
    ∧ (a < 1 ∨ 99999999 < a ∨ a.den ≠ 1 →
      (applyCreditPOST (some ⟨some cid, some a, some cur⟩) gwOk).1.status = 400)
    ∧ (1 ≤ a → a ≤ 99999999 → a.den = 1 →
      (applyCreditPOST (some ⟨some cid, some a, some cur⟩) gwOk).1.status ≠ 400) := by
  refine ⟨?_, ?_, ?_⟩
  · intro h
    have hcond : a.den ≠ 1 ∨ a < createIntentMin ∨ maxCents < a := by
      rw [createIntentMin, maxCents]; tauto
    simp [createPaymentIntentPOST, hcid1, hcid2, hcond]
  · intro h
    have hcond : a.den ≠ 1 ∨ a < applyCreditMin ∨ maxCents < a := by
      rw [applyCreditMin, maxCents]; tauto
    simp [applyCreditPOST, hcid1, hcid2, hcond]
  · intro h1 h2 h3
    have hcond : ¬(a.den ≠ 1 ∨ a < applyCreditMin ∨ maxCents < a) := by
      rw [applyCreditMin, maxCents]
      push_neg
      exact ⟨h3, h1, h2⟩
    cases gwOk <;> simp [applyCreditPOST, hcid1, hcid2, hcond, hcur]

/-- Witness for the amended claim C2 at the concrete amount 30: rejected by
create-payment-intent with 400, accepted (no 400) by apply-credit. -/
theorem claim_c2_witness :
    ((30 : ℚ) < 50 ∧ (30 : ℚ).den = 1 ∧ (1 : ℚ) ≤ 30 ∧ (30 : ℚ) ≤ 99999999)
    ∧ (createPaymentIntentPOST (some ⟨some "cus_1", some 30, some "usd"⟩)
        (.ok ⟨some "sec"⟩)).1.status = 400
    ∧ (applyCreditPOST (some ⟨some "cus_1", some 30, some "usd"⟩) true).1.status ≠ 400 := by
  have h := claim_c2_amended "cus_1" "usd" 30 true (.ok ⟨some "sec"⟩)
    (by decide) (by decide) (by decide)
  exact ⟨⟨by decide, by decide, by decide, by decide⟩,
    h.1 (Or.inl (by decide)), h.2.2 (by decide) (by decide) (by decide)⟩

/-- Counterexample to claim C3: a redirect return whose intent succeeded
with amount 200 but whose apply-credit call fails.  The handler throws, the
catch branch runs instead of the refetch, so the profile is not re-fetched;
an error is shown instead. -/
theorem claim_c3_counterexample :
    PageAction.fetchCustomer ∉
      (pageLoadEffect "cus_1" (some "sec")
        ⟨true, some ⟨"succeeded", some 200, some 200, some "usd", none⟩, false⟩).actions
    ∧ (pageLoadEffect "cus_1" (some "sec")
        ⟨true, some ⟨"succeeded", some 200, some 200, some "usd", none⟩, false⟩).error
      = some "Failed to apply credit" := by decide

/-- Claim C3 as amended: after the reconciliation handler runs, the profile
is re-fetched whenever the handler completes without throwing — which covers
the intent-not-succeeded and amount-below-1 abort cases — but when the
apply-credit call fails the handler throws, no re-fetch happens, and the
thrown message is displayed instead. -/
theorem claim_c3_amended (slug secret : String) (env : RedirectEnv)
    (hs : slug ≠ "") :
    ((processPaymentRedirect slug secret env).2 = .ok () →
      PageAction.fetchCustomer ∈ (pageLoadEffect slug (some secret) env).actions)
    ∧ (∀ intent, env.intent = some intent → intent.status ≠ "succeeded" →
        PageAction.fetchCustomer ∈ (pageLoadEffect slug (some secret) env).actions)
    ∧ (∀ intent, env.intent = some intent → resolvedAmount intent < 1 →
        PageAction.fetchCustomer ∈ (pageLoadEffect slug (some secret) env).actions)
    ∧ (∀ e, (processPaymentRedirect slug secret env).2 = .error e →
        PageAction.fetchCustomer ∉ (pageLoadEffect slug (some secret) env).actions
        ∧ (pageLoadEffect slug (some secret) env).error = some e) := by
  have hok : ∀ hr : (processPaymentRedirect slug secret env).2 = .ok (),
      PageAction.fetchCustomer ∈ (pageLoadEffect slug (some secret) env).actions := by
    intro hr
    simp [pageLoadEffect, hs, hr]
  refine ⟨hok, ?_, ?_, ?_⟩
  · intro intent hint hstat
    apply hok
    rcases env with ⟨sl, i, ok⟩
    cases hint
    cases sl <;> simp [processPaymentRedirect, hstat]
  · intro intent hint ha
    apply hok
    rcases env with ⟨sl, i, ok⟩
    cases hint
    cases sl <;> simp only [processPaymentRedirect] <;>
      split_ifs <;> simp_all
  · intro e he
    have hact : ∀ a ∈ (processPaymentRedirect slug secret env).1,
        a ≠ PageAction.fetchCustomer := by
      rcases env with ⟨sl, i, ok⟩
      cases sl <;> rcases i with _ | i <;>
        simp only [processPaymentRedirect] <;> split_ifs <;> simp
    constructor
    · intro hmem
      simp [pageLoadEffect, hs, he] at hmem
      exact hact _ hmem rfl
    · simp [pageLoadEffect, hs, he]

/-- Witness for the amended claim C3: a canceled intent still leads to a
refetch of the customer profile. -/
theorem claim_c3_witness :
    PageAction.fetchCustomer ∈
      (pageLoadEffect "cus_1" (some "sec")
        ⟨true, some ⟨"canceled", some 200, some 200, some "usd", none⟩, true⟩).actions := by
  have h := claim_c3_amended "cus_1" "sec"
    ⟨true, some ⟨"canceled", some 200, some 200, some "usd", none⟩, true⟩ (by decide)
  exact h.2.1 _ rfl (by decide)

/-- Claim C4: on a page load with the payment_intent_client_secret query
parameter present (and a nonempty slug, without which the effect bails out
before the handler runs), the very first action is the replaceState that
rewrites the address to the bare customer path — so the strip precedes every
asynchronous step of the reconciliation protocol — and the final address is
the bare customer path, which carries no query string and hence no secret. -/
theorem claim_c4_strip_secret (slug secret : String) (env : RedirectEnv)
    (hs : slug ≠ "") :
    (pageLoadEffect slug (some secret) env).actions.head? =
      some (.replaceUrl ("/customers/" ++ slug))
    ∧ (pageLoadEffect slug (some secret) env).url = "/customers/" ++ slug := by
  rcases hr : (processPaymentRedirect slug secret env).2 with e | u <;>
    simp [pageLoadEffect, hs, hr]

/-- Witness for claim C4 at concrete inputs. -/
theorem claim_c4_witness :
    ("cus_1" : String) ≠ ""
    ∧ (pageLoadEffect "cus_1" (some "sec")
        ⟨true, some ⟨"succeeded", some 200, some 200, some "usd", none⟩, true⟩).actions.head?
      = some (.replaceUrl "/customers/cus_1")
    ∧ (pageLoadEffect "cus_1" (some "sec")
        ⟨true, some ⟨"succeeded", some 200, some 200, some "usd", none⟩, true⟩).url
      = "/customers/cus_1" := by
  have h := claim_c4_strip_secret "cus_1" "sec"
    ⟨true, some ⟨"succeeded", some 200, some 200, some "usd", none⟩, true⟩ (by decide)
  exact ⟨by decide, by rw [h.1]; decide, by rw [h.2]; decide⟩

/-- Claim C5: for a valid credit-adjustment request (customer reference of
the cus_ shape, integer amount in [1, 99999999], 3-letter currency) whose
gateway call succeeds, apply-credit returns the bare acknowledgment (200,
ok) and instructs the ledger gateway to record a balance transaction of
exactly minus the amount, for that customer, in the given currency code
normalized to lowercase. -/
theorem claim_c5_apply_credit (cid cur : String) (a : ℚ)
    (h1 : cid ≠ "") (h2 : jsStartsWith cid "cus_" = true)
    (hden : a.den = 1) (hlo : 1 ≤ a) (hhi : a ≤ 99999999) (hcur : cur.length = 3) :
    applyCreditPOST (some ⟨some cid, some a, some cur⟩) true
      = (⟨200, .ok⟩, some ⟨cid, -a, jsToLower cur⟩) := by
  have hcond : ¬(a.den ≠ 1 ∨ a < applyCreditMin ∨ maxCents < a) := by
    rw [applyCreditMin, maxCents]; push_neg; exact ⟨hden, hlo, hhi⟩
  simp [applyCreditPOST, h1, h2, hcond, hcur]

/-- Witness for claim C5 at the concrete request (cus_1, 200, usd). -/
theorem claim_c5_witness :
    jsStartsWith "cus_1" "cus_" = true ∧ ("usd" : String).length = 3
    ∧ applyCreditPOST (some ⟨some "cus_1", some 200, some "usd"⟩) true
        = (⟨200, .ok⟩, some ⟨"cus_1", -200, "usd"⟩) := by
  have h := claim_c5_apply_credit "cus_1" "usd" 200 (by decide) (by decide)
    (by decide) (by decide) (by decide) (by decide)
  refine ⟨by decide, by decide, ?_⟩
  rw [h]
  decide

/-- Claim C6: on return from a redirect, when the retrieved intent is
missing, its status is not succeeded, or its resolved amount is below 1
minor unit, the reconciliation run aborts silently: the page shows no error
and performs no apply-credit call (whatever the stripe-load and
apply-credit outcomes would have been). -/
theorem claim_c6_silent_abort (slug secret : String) (sl ok : Bool)
    (intent : PaymentIntentSnapshot) (hs : slug ≠ "")
    (h : intent.status ≠ "succeeded" ∨ resolvedAmount intent < 1) :
    ((pageLoadEffect slug (some secret) ⟨sl, some intent, ok⟩).error = none
      ∧ applyCreditCount
          (pageLoadEffect slug (some secret) ⟨sl, some intent, ok⟩).actions = 0)
    ∧ ((pageLoadEffect slug (some secret) ⟨sl, none, ok⟩).error = none
      ∧ applyCreditCount
          (pageLoadEffect slug (some secret) ⟨sl, none, ok⟩).actions = 0) := by
  have hrun : processPaymentRedirect slug secret ⟨sl, some intent, ok⟩
      = (if sl = false then [.loadStripe]
          else [.loadStripe, .retrieveIntent secret], .ok ()) := by
    cases sl
    · simp [processPaymentRedirect]
    · rcases h with h | h
      · simp [processPaymentRedirect, h]
      · by_cases hst : intent.status = "succeeded"
        · simp [processPaymentRedirect, hst, h]
        · simp [processPaymentRedirect, hst]
  have hrun2 : processPaymentRedirect slug secret ⟨sl, none, ok⟩
      = (if sl = false then [.loadStripe]
          else [.loadStripe, .retrieveIntent secret], .ok ()) := by
    cases sl <;> simp [processPaymentRedirect]
  constructor
  · cases sl <;>
      simp [pageLoadEffect, hs, hrun, applyCreditCount, isApplyCredit]
  · cases sl <;>
      simp [pageLoadEffect, hs, hrun2, applyCreditCount, isApplyCredit]

/-- Witness for claim C6 at a canceled intent. -/
theorem claim_c6_witness :
    ("canceled" : String) ≠ "succeeded"
    ∧ (pageLoadEffect "cus_1" (some "sec")
        ⟨true, some ⟨"canceled", some 200, some 200, some "usd", none⟩, true⟩).error = none
    ∧ applyCreditCount (pageLoadEffect "cus_1" (some "sec")
        ⟨true, some ⟨"canceled", some 200, some 200, some "usd", none⟩, true⟩).actions = 0 := by
  have h := claim_c6_silent_abort "cus_1" "sec" true true
    ⟨"canceled", some 200, some 200, some "usd", none⟩ (by decide) (Or.inl (by decide))
  exact ⟨by decide, h.1.1, h.1.2⟩

/-- Claim C7: when the retrieved intent has status succeeded and resolved
amount at least 1, the reconciliation run performs exactly one apply-credit
call, crediting the resolved amount together with the intent currency (usd
when the currency field is absent); the resolved amount is amount_received
when that field is present and falls back to the requested amount (0 when
both are absent) otherwise. -/
theorem claim_c7_credit_confirmed (slug secret : String) (ok : Bool)
    (intent : PaymentIntentSnapshot) (hs : slug ≠ "")
    (hst : intent.status = "succeeded") (ha : 1 ≤ resolvedAmount intent) :
    applyCreditCount
        (pageLoadEffect slug (some secret) ⟨true, some intent, ok⟩).actions = 1
    ∧ PageAction.applyCredit slug (resolvedAmount intent) (intent.currency.getD "usd")
        ∈ (pageLoadEffect slug (some secret) ⟨true, some intent, ok⟩).actions
    ∧ (∀ ar, intent.amount_received = some ar → resolvedAmount intent = ar)
    ∧ (intent.amount_received = none → resolvedAmount intent = intent.amount.getD 0)
    ∧ (∀ c, intent.currency = some c → intent.currency.getD "usd" = c) := by
  have hrun : processPaymentRedirect slug secret ⟨true, some intent, ok⟩
      = ([.loadStripe, .retrieveIntent secret,
          .applyCredit slug (resolvedAmount intent) (intent.currency.getD "usd")],
         if ok then .ok () else .error "Failed to apply credit") := by
    simp [processPaymentRedirect, hst]
    rw [if_neg (by omega)]
    cases ok <;> simp
  refine ⟨?_, ?_, ?_, ?_, ?_⟩
  · cases ok <;>
      simp [pageLoadEffect, hs, hrun, applyCreditCount, isApplyCredit]
  · cases ok <;> simp [pageLoadEffect, hs, hrun]
  · intro ar har; simp [resolvedAmount, har]
  · intro har; simp [resolvedAmount, har]
  · intro c hc; simp [hc]

/-- Witness for claim C7: amount_received 200 is preferred over the
requested amount 100, and the intent currency eur is used. -/
theorem claim_c7_witness :
    resolvedAmount ⟨"succeeded", some 100, some 200, some "eur", none⟩ = 200
    ∧ PageAction.applyCredit "cus_1" 200 "eur"
        ∈ (pageLoadEffect "cus_1" (some "sec")
            ⟨true, some ⟨"succeeded", some 100, some 200, some "eur", none⟩, true⟩).actions := by
  have h := claim_c7_credit_confirmed "cus_1" "sec" true
    ⟨"succeeded", some 100, some 200, some "eur", none⟩ (by decide) rfl (by decide)
  exact ⟨by decide, by simpa using h.2.1⟩

/-- Claim C8: once validation passes, a failing gateway call — whatever its
internal error — and a created intent carrying no confirmation secret both
produce the same 500 response with the fixed generic message, which is not a
400-class validation response. -/
theorem claim_c8_gateway_failure (cid cur : String) (a : ℚ)
    (h1 : cid ≠ "") (h2 : jsStartsWith cid "cus_" = true)
    (hden : a.den = 1) (hlo : 50 ≤ a) (hhi : a ≤ 99999999) :
    (∀ e, (createPaymentIntentPOST (some ⟨some cid, some a, some cur⟩) (.error e)).1
        = ⟨500, .err "Failed to create payment intent"⟩)
    ∧ ((createPaymentIntentPOST (some ⟨some cid, some a, some cur⟩) (.ok ⟨none⟩)).1
        = ⟨500, .err "Failed to create payment intent"⟩)
    ∧ (createPaymentIntentPOST (some ⟨some cid, some a, some cur⟩)
        (.error "internal gateway detail")).1.status ≠ 400 := by
  have hcond : ¬(a.den ≠ 1 ∨ a < createIntentMin ∨ maxCents < a) := by
    rw [createIntentMin, maxCents]; push_neg; exact ⟨hden, hlo, hhi⟩
  refine ⟨?_, ?_, ?_⟩
  · intro e; simp [createPaymentIntentPOST, h1, h2, hcond]
  · simp [createPaymentIntentPOST, h1, h2, hcond]
  · simp [createPaymentIntentPOST, h1, h2, hcond]

/-- Witness for claim C8 at the concrete request (cus_1, 200, usd). -/
theorem claim_c8_witness :
    (createPaymentIntentPOST (some ⟨some "cus_1", some 200, some "usd"⟩)
        (.error "stripe exploded")).1
      = ⟨500, .err "Failed to create payment intent"⟩
    ∧ (createPaymentIntentPOST (some ⟨some "cus_1", some 200, some "usd"⟩)
        (.ok ⟨none⟩)).1
      = ⟨500, .err "Failed to create payment intent"⟩ := by
  have h := claim_c8_gateway_failure "cus_1" "usd" 200 (by decide) (by decide)
    (by decide) (by decide) (by decide)
  exact ⟨h.1 _, h.2.1⟩

/-- Claim C9: the client parses the decimal major-unit input with parseFloat
and rounds times 100 to integer minor units; whenever that rounded amount is
below 50 — and likewise when parsing yields NaN — it sets the validation
message Enter at least $0.50 and performs no intent-creation call, and any
intent-creation call it does perform carries exactly the rounded amount,
which is then at least 50. -/
theorem claim_c9_min_amount (cid cur s : String) (env : CreateEnv) :
    (∀ q, parseFloat s = some q → jsRound (q * 100) < 50 →
      handleCreatePaymentIntent cid s cur env = ([], some "Enter at least $0.50", none))
    ∧ (parseFloat s = none →
      handleCreatePaymentIntent cid s cur env = ([], some "Enter at least $0.50", none))
    ∧ (∀ q act, parseFloat s = some q →
        act ∈ (handleCreatePaymentIntent cid s cur env).1 →
        act = .createIntent cid (jsRound (q * 100)) cur ∧ 50 ≤ jsRound (q * 100)) := by
  refine ⟨?_, ?_, ?_⟩
  · intro q hq hlt
    rw [handleCreatePaymentIntent, hq]
    simp [hlt]
  · intro hq
    rw [handleCreatePaymentIntent, hq]
  · intro q act hq hmem
    rw [handleCreatePaymentIntent, hq] at hmem
    by_cases hlt : jsRound (q * 100) < 50
    · simp [hlt] at hmem
    · rcases env with ⟨resp⟩
      rcases resp with m | cs <;> simp [hlt] at hmem <;>
        exact ⟨hmem, by omega⟩

/-- Witness for claim C9 at the input 0.30, which parses to 3/10 and rounds
to 30 minor units. -/
theorem claim_c9_witness :
    parseFloat "0.30" = some (3 / 10)
    ∧ jsRound ((3 / 10 : ℚ) * 100) = 30
    ∧ handleCreatePaymentIntent "cus_1" "0.30" "usd" ⟨.ok "sec"⟩
        = ([], some "Enter at least $0.50", none) := by
  have hp : parseFloat "0.30" = some (3 / 10) := by
    have h : parseParts "0.30" = some (false, 0, 30, 2) := by decide
    rw [parseFloat, h]; norm_num
  have hr : jsRound ((3 / 10 : ℚ) * 100) = 30 := by norm_num [jsRound]
  exact ⟨hp, hr,
    (claim_c9_min_amount "cus_1" "usd" "0.30" ⟨.ok "sec"⟩).1 _ hp (by rw [hr]; decide)⟩

/-- Claim C10: the reconciliation run is invariant under the customer field
recorded on the retrieved intent — the handler never reads it — and on
success it credits the customer reference from the page URL.  So a
succeeded intent secret presented on another customer page credits the URL
customer, not the intent customer. -/
theorem claim_c10_url_customer (slug secret : String) (sl ok : Bool)
    (st : String) (am ar : Option ℤ) (cur : Option String) (cu1 cu2 : Option String) :
    processPaymentRedirect slug secret ⟨sl, some ⟨st, am, ar, cur, cu1⟩, ok⟩
      = processPaymentRedirect slug secret ⟨sl, some ⟨st, am, ar, cur, cu2⟩, ok⟩
    ∧ (st = "succeeded" → 1 ≤ resolvedAmount ⟨st, am, ar, cur, cu1⟩ → sl = true →
        PageAction.applyCredit slug (resolvedAmount ⟨st, am, ar, cur, cu1⟩) (cur.getD "usd")
          ∈ (processPaymentRedirect slug secret ⟨sl, some ⟨st, am, ar, cur, cu1⟩, ok⟩).1) := by
  constructor
  · cases sl <;> simp [processPaymentRedirect, resolvedAmount]
  · intro hst ha hsl
    subst hsl
    subst hst
    simp [processPaymentRedirect]
    rw [if_neg (by omega)]
    cases ok <;> simp

/-- Witness for claim C10: the intent records customer cus_b, the page URL
names cus_a, and the credit goes to cus_a. -/
theorem claim_c10_witness :
    (some "cus_b" : Option String) ≠ some "cus_a"
    ∧ PageAction.applyCredit "cus_a" 200 "usd"
        ∈ (processPaymentRedirect "cus_a" "sec"
            ⟨true, some ⟨"succeeded", some 100, some 200, some "usd", some "cus_b"⟩, true⟩).1 := by
  have h := (claim_c10_url_customer "cus_a" "sec" true true
    "succeeded" (some 100) (some 200) (some "usd") (some "cus_b") none).2 rfl
    (by decide) rfl
  exact ⟨by decide, by simpa [resolvedAmount] using h⟩
